import Mathlib

/-!
Verification development for the `sparkplayhouse/smis` repository.

The Python sources are shallowly embedded:
* `src/djanx/base/templatetags/base_tags.py` (the `title` template tag),
* `src/djanx/urls.py` (URL composition),
* `src/app/conf/split_settings/assets.py` and `src/app/conf/settings.py`
  (the `.gitignore` generation at settings import),
* `src/djanx/base/management/commands/tailwind.py` and
  `src/djanx/tailwindcss/management/commands/tailwindcss.py`
  (the Tailwind management commands), and
* `src/djanx/tailwindcss/management/commands/tw.py` (the `tw` alias).

Stateful command code is embedded as functions from an environment (the
observable state of the machine: which executables `shutil.which` finds,
what the filesystem holds, how subprocesses exit) to a trace of effects
(`stdout` writes, `subprocess.run` calls, `shutil.rmtree`, `shutil.copy2`)
paired with an `Except` value standing for normal return or a raised
Python exception.
-/

namespace Smis

/-! ## Python string helpers -/

/-- Embedding of Python `str.isspace` for the characters `str.strip()`
removes (restricted to the ASCII whitespace characters, which is what the
repository's settings values contain). -/
def pyIsSpace (c : Char) : Bool :=
  c == ' ' || c == '\t' || c == '\n' || c == '\r' || c == '\u000B' || c == '\u000C'

/-- Embedding of Python `str.strip()`: drop leading and trailing whitespace. -/
def pyStrip (s : String) : String :=
  String.mk (((s.data.dropWhile pyIsSpace).reverse.dropWhile pyIsSpace).reverse)

/-- Embedding of Python `s.split(".")[-1]`: the characters after the last
dot (the whole string when it has no dot). -/
def pyLastSegment (s : String) : String :=
  String.mk ((s.data.reverse.takeWhile fun c => c ≠ '.').reverse)

/-- Embedding of Python `PurePath.name`: the last `/`-separated component. -/
def pyPathName (p : String) : String :=
  String.mk ((p.data.reverse.takeWhile fun c => c ≠ '/').reverse)

/-- Split a character list at a separator (the list of segments; an empty
input is one empty segment, like Python `str.split` with an argument). -/
def splitChar (sep : Char) : List Char → List (List Char)
  | [] => [[]]
  | c :: cs =>
    match splitChar sep cs with
    | [] => [[]]
    | h :: t => if c = sep then [] :: h :: t else (c :: h) :: t

/-- The lines of a string (Python `s.split("\n")`). -/
def pyLines (s : String) : List String :=
  (splitChar '\n' s.data).map String.mk

/-! ## `title` template tag (src/djanx/base/templatetags/base_tags.py)

`title(context, name=None, separator=" | ")` computes
`title = name or context.get("page_title")` and returns
`<title>{full_title}</title>` where
`full_title = f"{title}{separator if site_name else ''}{site_name}" if title else site_name`
and `site_name = getattr(settings, "SITE_NAME", "").strip()`.

`none` stands for Python `None` (argument not given / key absent); a
`some s` is a string value.  Python truthiness of a string is `s != ""`. -/

/-- Embedding of `name or context.get("page_title")`. -/
def effectiveTitle (ctxPageTitle : Option String) (name : Option String) :
    Option String :=
  match name with
  | some s => if s = "" then ctxPageTitle else some s
  | none => ctxPageTitle

/-- Python truthiness of an optional string. -/
def truthyOpt : Option String → Bool
  | some s => !(s == "")
  | none => false

/-- Embedding of the `title` template tag. -/
def titleTag (siteNameSetting ctxPageTitle name : Option String)
    (separator : String) : String :=
  let site_name := pyStrip (siteNameSetting.getD "")
  let t := effectiveTitle ctxPageTitle name
  let full_title :=
    if truthyOpt t then
      (t.getD "") ++ (if site_name = "" then "" else separator) ++ site_name
    else site_name
  "<title>" ++ full_title ++ "</title>"

/-! ## URL composition (src/djanx/urls.py) -/

/-- The fixed `djanx_apps` mapping of the module (a Python dict literal,
iterated in insertion order). -/
def djanx_apps : List (String × String) :=
  [("djanx.base", "djanx.base.urls")]

/-- Embedding of the module-level `for` loop: starting from
`urlpatterns = []`, append `path(f"{app_prefix}/", include(url_module))`
for each installed app.  A mounted pattern is modelled as the pair of its
path prefix and the included URL module name. -/
def buildUrlpatterns (isInstalled : String → Bool)
    (apps : List (String × String)) : List (String × String) :=
  apps.foldl
    (fun acc e =>
      if isInstalled e.1 then acc ++ [(pyLastSegment e.1 ++ "/", e.2)] else acc)
    []

/-- `urlpatterns` after the module body runs, given which apps
`apps.is_installed` reports as installed. -/
def urlpatterns (isInstalled : String → Bool) : List (String × String) :=
  buildUrlpatterns isInstalled djanx_apps

/-! ## Assets settings segment (src/app/conf/split_settings/assets.py and
src/app/conf/settings.py)

Both settings files run, at import time:
`ASSETS_DIR.mkdir(parents=True, exist_ok=True)` and then, if
`gitignore_path.exists()` is false, `gitignore_path.write_text(...)`.
The filesystem state the segment touches is the assets directory's
existence and the content of `ASSETS_DIR/.gitignore` (`none` = absent). -/

structure AssetsFS where
  assetsDirExists : Bool
  gitignore : Option String
deriving DecidableEq

/-- The text `assets.py` writes into a fresh `.gitignore`. -/
def splitGitignoreContent : String :=
  "# Automatically generated (once)\n# This file will not be overwritten - you can safely edit it\n# Ignore all files within this directory\n*\n"

/-- The text `settings.py` writes into a fresh `.gitignore`. -/
def settingsGitignoreContent : String :=
  "# * Automatically generated once (unless you delete the entire assets folder)\n# * As it's generated once, it will not be overwritten - you can safely edit it\n\n# Ignore all files within this directory\n*"

/-- Embedding of the settings segment's import-time effect: `mkdir` with
`exist_ok`, then write `content` only when no `.gitignore` exists. -/
def importAssetsSegment (content : String) (fs : AssetsFS) : AssetsFS :=
  let fs1 : AssetsFS := { assetsDirExists := true, gitignore := fs.gitignore }
  match fs1.gitignore with
  | some _ => fs1
  | none => { assetsDirExists := fs1.assetsDirExists, gitignore := some content }

/-- Importing `app/conf/split_settings/assets.py`. -/
def importAssetsSplit : AssetsFS → AssetsFS :=
  importAssetsSegment splitGitignoreContent

/-- Importing `app/conf/settings.py` (its static/media section). -/
def importAssetsSettings : AssetsFS → AssetsFS :=
  importAssetsSegment settingsGitignoreContent

/-! ## Management command model

Shared machinery for `tailwind.py` (suffix `B`, the `djanx.base` command)
and `tailwindcss.py` (suffix `T`, the `djanx.tailwindcss` command). -/

/-- An observable effect of a command run. -/
inductive Ev where
  | out (s : String)
  | sub (argv : List String)
  | rmtree (p : String)
  | copy (src dst : String)
deriving DecidableEq

/-- A Python exception escaping a command: a `CommandError` with its
message, or an `OSError` (as raised by an unguarded filesystem call). -/
inductive PyExc where
  | commandError (msg : String)
  | osError (msg : String)
deriving DecidableEq

/-- The result of running a piece of command code: the effect trace it
produced, and either the returned value or the exception it raised. -/
def Res (α : Type) : Type := List Ev × Except PyExc α

/-- Sequencing: run `r`; on normal return feed its value to `f`, on an
exception propagate it.  Traces accumulate. -/
def Res.bind {α β : Type} (r : Res α) (f : α → Res β) : Res β :=
  match r with
  | (t, Except.ok a) => (t ++ (f a).1, (f a).2)
  | (t, Except.error e) => (t, Except.error e)

/-- The value of the Tailwind config setting when it is defined
(`TAILWIND_CSS_CONFIG`, or `TAILWIND_CSS["config"]`): a `str`, a
`pathlib.Path`, or a value of any other type (with its type name, its
`repr`, and its Python truthiness). -/
inductive ConfigVal where
  | str (s : String)
  | path (s : String)
  | other (typeName reprS : String) (truthy : Bool)
deriving DecidableEq

/-- Python truthiness of the setting value (`Path` objects are always
truthy: `pathlib` defines no `__bool__`). -/
def truthyVal : ConfigVal → Bool
  | ConfigVal.str s => !(s == "")
  | ConfigVal.path _ => true
  | ConfigVal.other _ _ b => b

/-- Embedding of `repr(config_setting)` as used in the f-string `{...!r}`. -/
def pyReprVal : ConfigVal → String
  | ConfigVal.str s => "'" ++ s ++ "'"
  | ConfigVal.path s => "PosixPath('" ++ s ++ "')"
  | ConfigVal.other _ r _ => r

/-- Embedding of `str(config_setting)` as used in a plain f-string slot. -/
def pyStrVal : ConfigVal → String
  | ConfigVal.str s => s
  | ConfigVal.path s => s
  | ConfigVal.other _ r _ => r

/-- The value's Python type name (`type(config_setting).__name__`). -/
def typeNameVal : ConfigVal → String
  | ConfigVal.str _ => "str"
  | ConfigVal.path _ => "PosixPath"
  | ConfigVal.other t _ _ => t

/-- The filesystem path the setting denotes, when it is a `str` or `Path`. -/
def configPathOf : ConfigVal → Option String
  | ConfigVal.str s => some s
  | ConfigVal.path s => some s
  | ConfigVal.other _ _ _ => none

/-- The observable environment a command run sees: what `shutil.which`
finds, how the probed subprocesses exit and what they print, which files
and directories exist, and whether the filesystem calls succeed. -/
structure Env where
  osName : String
  npmFound : Bool
  npmWorks : Bool
  npmVersionOut : String
  npmExecErr : String
  npxFound : Bool
  npxWorks : Bool
  npxVersionOut : String
  npxExecErr : String
  setupDirExists : Bool
  packageJsonExists : Bool
  configDefined : Bool
  configValue : ConfigVal
  configExists : Bool
  configIsFile : Bool
  configSameAsDest : Bool
  copyFails : Bool
  copyErr : String
  nodeModulesExists : Bool
  rmtreeFails : Bool
  rmtreeErr : String
  npmInstallExit0 : Bool
  npmInstallStdout : String
  npmInstallStderr : String
  buildExit0 : Bool
  buildStdout : String
  buildStderr : String
  watchExit0 : Bool
  watchInterrupted : Bool
  outputExists : Bool
  outputSizeText : String

/-! ### Fixed paths

`tailwind.py` computes `base_app_dir = Path(__file__).resolve().parent³`
(the `djanx/base` package directory); `tailwindcss.py` likewise resolves
the `djanx/tailwindcss` package directory.  The absolute location is
irrelevant to every claim, so the package directories stand as fixed
path strings. -/

def baseAppDir : String := "djanx/base"

def tailwindInputDirB : String := baseAppDir ++ "/static_src/tailwind"

def outputCssPathB : String :=
  baseAppDir ++ "/static/djanx/base/tailwind/output.min.css"

def nodeModulesB : String := tailwindInputDirB ++ "/node_modules"

def destConfigB : String := tailwindInputDirB ++ "/input.css"

def tailwindcssDir : String := "djanx/tailwindcss"

def managementDirT : String := tailwindcssDir ++ "/management"

def outputCssPathT : String := tailwindcssDir ++ "/static/tailwindcss/min.css"

def nodeModulesT : String := managementDirT ++ "/node_modules"

def destConfigT : String := managementDirT ++ "/config.css"

/-- The path `shutil.which("npm")` returns when npm is on the search path. -/
def npmPath : String := "/usr/bin/npm"

/-- The path `shutil.which("npx")` returns when npx is on the search path. -/
def npxPath : String := "/usr/bin/npx"

/-! ### Error and status messages (transcribed from the sources) -/

def msgSetupDirB : String :=
  "Directory does not exist: " ++ tailwindInputDirB

def msgPackageJsonB : String :=
  "package.json not found in " ++ tailwindInputDirB

def msgConfigNotDefinedB : String :=
  "TAILWIND_CSS_CONFIG setting is not defined in your Django settings.\nPlease add it to your settings file, for example:\nTAILWIND_CSS_CONFIG = BASE_DIR / 'app' / 'conf' / 'tailwind.config.css'"

def msgConfigEmptyB (reprS : String) : String :=
  "TAILWIND_CSS_CONFIG must be a non-empty string or Path, got: " ++ reprS

def msgConfigWrongTypeB (typeName : String) : String :=
  "TAILWIND_CSS_CONFIG must be a string or Path object, got: " ++ typeName

def msgConfigNotFoundB (p settingStr : String) : String :=
  "Tailwind CSS config file not found: " ++
    (p ++ ("\nTAILWIND_CSS_CONFIG is set to: " ++
      (settingStr ++ "\nPlease ensure the file exists or update the TAILWIND_CSS_CONFIG setting.")))

def msgConfigNotAFileB (p : String) : String :=
  "TAILWIND_CSS_CONFIG must point to a file, not a directory: " ++ p

def msgSettingNotDefinedT : String :=
  "TAILWIND_CSS setting with a 'config' key is not defined in your Django settings.\nPlease add it to your settings file, for example:\nTAILWIND_CSS = \x7b\n    'config': APP_DIR / 'config' / 'tailwind.css',\n\x7d"

def msgSettingEmptyT (reprS : String) : String :=
  "TAILWIND_CSS['config'] must be a non-empty string or Path, got: " ++ reprS

def msgSettingWrongTypeT (typeName : String) : String :=
  "TAILWIND_CSS['config'] must be a string or Path object, got: " ++ typeName

def msgSettingNotFoundT (p settingStr : String) : String :=
  "TailwindCSS config file not found: " ++
    (p ++ ("\nTAILWIND_CSS['config'] is set to: " ++
      (settingStr ++ "\nPlease ensure the file exists or update the TAILWIND_CSS setting.")))

def msgSettingNotAFileT (p : String) : String :=
  "TAILWIND_CSS['config'] must point to a file, not a directory: " ++ p

def msgNpmNotFound (osName : String) : String :=
  "npm not found in PATH. Please ensure Node.js and npm are installed and added to your system PATH.\nVisit: https://nodejs.org/\n\nAfter installation, you may need to:\n  - Restart your terminal/IDE\n  - Add npm to your PATH environment variable\n  - Current OS: " ++ osName

def msgNpxNotFound (osName : String) : String :=
  "npx not found in PATH. Please ensure Node.js and npm are installed and added to your system PATH.\nVisit: https://nodejs.org/\n\nAfter installation, you may need to:\n  - Restart your terminal/IDE\n  - Add npx to your PATH environment variable\n  - Current OS: " ++ osName

def msgNpmExecFail (cmdPath err : String) : String :=
  "npm found at '" ++ cmdPath ++ "' but failed to execute.\nError: " ++ err

def msgNpxExecFail (cmdPath err : String) : String :=
  "npx found at '" ++ cmdPath ++ "' but failed to execute.\nError: " ++ err

def msgCopyFail (err : String) : String :=
  "Failed to copy config file: " ++ err

/-- `"-" * 50` of the status heading. -/
def dashes50 : String := String.mk (List.replicate 50 '-')

/-! ### Shared subroutines -/

/-- Embedding of `Command._check_npm` (identical in both files):
`shutil.which("npm")`, then `subprocess.run([npm, "--version"], check=True)`
with `CalledProcessError` turned into a `CommandError`. -/
def checkNpm (env : Env) : Res Unit :=
  if !env.npmFound then
    ([], Except.error (PyExc.commandError (msgNpmNotFound env.osName)))
  else if env.npmWorks then
    ([Ev.sub [npmPath, "--version"]], Except.ok ())
  else
    ([Ev.sub [npmPath, "--version"]],
      Except.error (PyExc.commandError (msgNpmExecFail npmPath env.npmExecErr)))

/-- Embedding of `Command._check_npx` (identical in both files). -/
def checkNpx (env : Env) : Res Unit :=
  if !env.npxFound then
    ([], Except.error (PyExc.commandError (msgNpxNotFound env.osName)))
  else if env.npxWorks then
    ([Ev.sub [npxPath, "--version"]], Except.ok ())
  else
    ([Ev.sub [npxPath, "--version"]],
      Except.error (PyExc.commandError (msgNpxExecFail npxPath env.npxExecErr)))

/-! ### The `tailwind` command (src/djanx/base/management/commands/tailwind.py) -/

/-- Embedding of `Command._validate_setup`. -/
def validateSetupB (env : Env) : Res Unit :=
  if !env.setupDirExists then
    ([], Except.error (PyExc.commandError msgSetupDirB))
  else if !env.packageJsonExists then
    ([], Except.error (PyExc.commandError msgPackageJsonB))
  else ([], Except.ok ())

/-- Embedding of `Command._validate_tailwind_config`.  It raises only
`CommandError`, so its result carries the message alone; on success it
writes the config line and returns the config path. -/
def validateConfigB (env : Env) : List Ev × Except String String :=
  if !env.configDefined then ([], Except.error msgConfigNotDefinedB)
  else if !truthyVal env.configValue then
    ([], Except.error (msgConfigEmptyB (pyReprVal env.configValue)))
  else
    match configPathOf env.configValue with
    | none => ([], Except.error (msgConfigWrongTypeB (typeNameVal env.configValue)))
    | some p =>
      if !env.configExists then
        ([], Except.error (msgConfigNotFoundB p (pyStrVal env.configValue)))
      else if !env.configIsFile then
        ([], Except.error (msgConfigNotAFileB p))
      else ([Ev.out ("✓ Using config: " ++ p)], Except.ok p)

/-- Lift a validator result into `Res`, turning its message into the
`CommandError` the Python `raise` produces. -/
def liftValidate (r : List Ev × Except String String) : Res String :=
  match r with
  | (t, Except.ok p) => (t, Except.ok p)
  | (t, Except.error m) => (t, Except.error (PyExc.commandError m))

/-- The `--force` branch of `install` in `tailwind.py`: bare
`shutil.rmtree` with no `try`, so a filesystem failure escapes as the
`OSError` itself. -/
def forceRemoveB (env : Env) (force : Bool) : Res Unit :=
  if force && env.nodeModulesExists then
    if env.rmtreeFails then
      ([Ev.out "Removing existing node_modules...", Ev.rmtree nodeModulesB],
        Except.error (PyExc.osError env.rmtreeErr))
    else
      ([Ev.out "Removing existing node_modules...", Ev.rmtree nodeModulesB],
        Except.ok ())
  else ([], Except.ok ())

/-- The `npm install` invocation of `install` in `tailwind.py`. -/
def npmInstallB (env : Env) : Res Unit :=
  let pre := [Ev.out ("Installing npm dependencies in " ++ tailwindInputDirB ++ "...")]
  if env.npmInstallExit0 then
    (pre ++ [Ev.sub [npmPath, "install"],
        Ev.out "✓ npm install completed successfully"] ++
      (if env.npmInstallStdout == "" then [] else [Ev.out env.npmInstallStdout]),
      Except.ok ())
  else
    (pre ++ [Ev.sub [npmPath, "install"], Ev.out "✗ npm install failed",
        Ev.out env.npmInstallStderr],
      Except.error (PyExc.commandError "npm install failed"))

/-- Embedding of `Command.install` in `tailwind.py`. -/
def installB (env : Env) (force : Bool) : Res Unit :=
  Res.bind (validateSetupB env) fun _ =>
  Res.bind (checkNpm env) fun _ =>
  Res.bind (forceRemoveB env force) fun _ =>
  npmInstallB env

/-- Embedding of `Command._ensure_node_modules` in `tailwind.py`. -/
def ensureNodeModulesB (env : Env) : Res Unit :=
  if env.nodeModulesExists then ([], Except.ok ())
  else
    let r := installB env false
    (Ev.out "node_modules not found. Running npm install first..." :: r.1, r.2)

/-- Embedding of `Command._copy_config_to_tailwind_dir`: skip the copy when
source and destination resolve to the same file, catch any copy failure as
a `CommandError`, return the destination path. -/
def copyConfigB (env : Env) (srcPath : String) : Res String :=
  if env.configSameAsDest then ([], Except.ok destConfigB)
  else if env.copyFails then
    ([Ev.copy srcPath destConfigB],
      Except.error (PyExc.commandError (msgCopyFail env.copyErr)))
  else ([Ev.copy srcPath destConfigB], Except.ok destConfigB)

/-- The compiler invocation of `build` in `tailwind.py`. -/
def buildRunB (env : Env) (localCfg : String) : Res Unit :=
  let argv := [npxPath, "@tailwindcss/cli", "-i", pyPathName localCfg, "-o",
    outputCssPathB, "--minify"]
  let pre := [Ev.out "Building Tailwind CSS for production...",
    Ev.out ("Output: " ++ outputCssPathB)]
  if env.buildExit0 then
    (pre ++ [Ev.sub argv, Ev.out "✓ Tailwind CSS build completed"] ++
      (if env.outputExists then
        [Ev.out ("Output file: " ++ outputCssPathB ++ " (" ++ env.outputSizeText ++ " KB)")]
       else []) ++
      (if env.buildStdout == "" then [] else [Ev.out env.buildStdout]),
      Except.ok ())
  else
    (pre ++ [Ev.sub argv, Ev.out "✗ Build failed", Ev.out env.buildStderr],
      Except.error (PyExc.commandError "Tailwind CSS build failed"))

/-- Embedding of `Command.build` in `tailwind.py`. -/
def buildB (env : Env) : Res Unit :=
  Res.bind (validateSetupB env) fun _ =>
  Res.bind (liftValidate (validateConfigB env)) fun src =>
  Res.bind (checkNpx env) fun _ =>
  Res.bind (ensureNodeModulesB env) fun _ =>
  Res.bind (copyConfigB env src) fun localCfg =>
  buildRunB env localCfg

/-- The compiler invocation of `watch` in `tailwind.py` (`--watch`, no
capture; `KeyboardInterrupt` is caught and reported, a non-zero exit
becomes a `CommandError`). -/
def watchRunB (env : Env) (localCfg : String) : Res Unit :=
  let argv := [npxPath, "@tailwindcss/cli", "-i", pyPathName localCfg, "-o",
    outputCssPathB, "--minify", "--watch"]
  let pre := [Ev.out "Starting Tailwind CSS in watch mode...",
    Ev.out ("Output: " ++ outputCssPathB), Ev.out "Press Ctrl+C to stop"]
  if env.watchInterrupted then
    (pre ++ [Ev.sub argv, Ev.out "\nStopped Tailwind CSS watch mode"], Except.ok ())
  else if env.watchExit0 then
    (pre ++ [Ev.sub argv], Except.ok ())
  else
    (pre ++ [Ev.sub argv],
      Except.error (PyExc.commandError "Tailwind CSS watch failed"))

/-- Embedding of `Command.watch` in `tailwind.py`. -/
def watchB (env : Env) : Res Unit :=
  Res.bind (validateSetupB env) fun _ =>
  Res.bind (liftValidate (validateConfigB env)) fun src =>
  Res.bind (checkNpx env) fun _ =>
  Res.bind (ensureNodeModulesB env) fun _ =>
  Res.bind (copyConfigB env src) fun localCfg =>
  watchRunB env localCfg

/-- The npm section of `status` (both files): report the version, the
execution failure, or the absence of npm. -/
def statusNpmSection (env : Env) : List Ev :=
  if env.npmFound then
    if env.npmWorks then
      [Ev.sub [npmPath, "--version"],
        Ev.out ("✓ npm version: " ++ pyStrip env.npmVersionOut ++ " (at " ++ npmPath ++ ")")]
    else
      [Ev.sub [npmPath, "--version"],
        Ev.out ("⚠ npm found at " ++ npmPath ++ " but failed to execute")]
  else [Ev.out ("✗ npm not found in PATH (OS: " ++ env.osName ++ ")")]

/-- The npx section of `status` (both files). -/
def statusNpxSection (env : Env) : List Ev :=
  if env.npxFound then
    if env.npxWorks then
      [Ev.sub [npxPath, "--version"],
        Ev.out ("✓ npx version: " ++ pyStrip env.npxVersionOut ++ " (at " ++ npxPath ++ ")")]
    else
      [Ev.sub [npxPath, "--version"],
        Ev.out ("⚠ npx found at " ++ npxPath ++ " but failed to execute")]
  else [Ev.out ("✗ npx not found in PATH (OS: " ++ env.osName ++ ")")]

/-- The config section of `status` in `tailwind.py`: the validator runs
under `try`, and a `CommandError` is caught and printed. -/
def configSectionB (env : Env) : List Ev :=
  match validateConfigB env with
  | (t, Except.ok _) => t
  | (t, Except.error m) =>
    t ++ [Ev.out "✗ TAILWIND_CSS_CONFIG issue:", Ev.out ("  " ++ m)]

/-- The output-file section of `status` in `tailwind.py`. -/
def outputSectionB (env : Env) : List Ev :=
  if env.outputExists then
    [Ev.out ("✓ Output CSS: " ++ outputCssPathB ++ " (" ++ env.outputSizeText ++ " KB)")]
  else
    [Ev.out ("⚠ Output CSS not found: " ++ outputCssPathB ++ "\n  (run: python manage.py tailwind [watch / build])")]

/-- Embedding of `Command.status` in `tailwind.py`: every validator error
is caught (`except CommandError`), so the run always returns normally. -/
def statusB (env : Env) : Res Unit :=
  ([Ev.out "djanX Tailwind CSS Setup Status", Ev.out dashes50] ++
    statusNpmSection env ++ statusNpxSection env ++ configSectionB env ++
    outputSectionB env,
    Except.ok ())

/-! ### The `tailwindcss` command
(src/djanx/tailwindcss/management/commands/tailwindcss.py)

`configDefined` stands for the condition of `_validate_setting`'s first
guard being passed: `self.tailwindcss_settings` is truthy *and* holds a
`"config"` key. -/

/-- Embedding of `Command._validate_setting` in `tailwindcss.py`. -/
def validateSettingT (env : Env) : List Ev × Except String String :=
  if !env.configDefined then ([], Except.error msgSettingNotDefinedT)
  else if !truthyVal env.configValue then
    ([], Except.error (msgSettingEmptyT (pyReprVal env.configValue)))
  else
    match configPathOf env.configValue with
    | none => ([], Except.error (msgSettingWrongTypeT (typeNameVal env.configValue)))
    | some p =>
      if !env.configExists then
        ([], Except.error (msgSettingNotFoundT p (pyStrVal env.configValue)))
      else if !env.configIsFile then
        ([], Except.error (msgSettingNotAFileT p))
      else ([Ev.out ("✓ Using config: " ++ p)], Except.ok p)

/-- The `--force` branch of `install` in `tailwindcss.py`: here the
`shutil.rmtree` sits in a `try`, and a failure is re-raised as a
`CommandError`. -/
def forceRemoveT (env : Env) (force : Bool) : Res Unit :=
  if force && env.nodeModulesExists then
    if env.rmtreeFails then
      ([Ev.out "Force option used. Removing node dependecies...",
          Ev.rmtree nodeModulesT],
        Except.error (PyExc.commandError
          ("Failed to remove node_modules: " ++ env.rmtreeErr)))
    else
      ([Ev.out "Force option used. Removing node dependecies...",
          Ev.rmtree nodeModulesT, Ev.out "✓ Removed node_modules"],
        Except.ok ())
  else ([], Except.ok ())

/-- The `npm install` invocation of `install` in `tailwindcss.py`. -/
def npmInstallT (env : Env) : Res Unit :=
  let pre := [Ev.out "Installing node dependencies..."]
  if env.npmInstallExit0 then
    (pre ++ [Ev.sub [npmPath, "install"],
        Ev.out "✓ tailwindcss install completed successfully"] ++
      (if env.npmInstallStdout == "" then [] else [Ev.out env.npmInstallStdout]),
      Except.ok ())
  else
    (pre ++ [Ev.sub [npmPath, "install"], Ev.out "✗ tailwindcss install failed",
        Ev.out env.npmInstallStderr],
      Except.error (PyExc.commandError "tailwindcss install failed"))

/-- Embedding of `Command.install` in `tailwindcss.py` (no setup
validation here). -/
def installT (env : Env) (force : Bool) : Res Unit :=
  Res.bind (checkNpm env) fun _ =>
  Res.bind (forceRemoveT env force) fun _ =>
  npmInstallT env

/-- Embedding of `Command._ensure_node_modules` in `tailwindcss.py`,
called from `build` with its default `force=False`:
`if not node_modules.exists() or force: self.install(force=force)`. -/
def ensureNodeModulesT (env : Env) (force : Bool) : Res Unit :=
  if !env.nodeModulesExists || force then installT env force
  else ([], Except.ok ())

/-- Embedding of `Command._copy_config` in `tailwindcss.py`. -/
def copyConfigT (env : Env) (srcPath : String) : Res String :=
  if env.configSameAsDest then ([], Except.ok destConfigT)
  else if env.copyFails then
    ([Ev.copy srcPath destConfigT],
      Except.error (PyExc.commandError (msgCopyFail env.copyErr)))
  else ([Ev.copy srcPath destConfigT], Except.ok destConfigT)

/-- The compiler invocation of `build` in `tailwindcss.py`. -/
def buildRunT (env : Env) (localCfg : String) : Res Unit :=
  let argv := [npxPath, "@tailwindcss/cli", "-i", pyPathName localCfg, "-o",
    outputCssPathT, "--minify"]
  let pre := [Ev.out "Building TailwindCSS..."]
  if env.buildExit0 then
    (pre ++ [Ev.sub argv, Ev.out "✓ TailwindCSS build completed"] ++
      (if env.outputExists then
        [Ev.out ("Build size: " ++ env.outputSizeText ++ " KB")]
       else []) ++
      (if env.buildStdout == "" then [] else [Ev.out env.buildStdout]),
      Except.ok ())
  else
    (pre ++ [Ev.sub argv, Ev.out "✗ Build failed", Ev.out env.buildStderr],
      Except.error (PyExc.commandError "TailwindCSS build failed"))

/-- Embedding of `Command.build` in `tailwindcss.py`. -/
def buildT (env : Env) : Res Unit :=
  Res.bind (liftValidate (validateSettingT env)) fun src =>
  Res.bind (checkNpx env) fun _ =>
  Res.bind (ensureNodeModulesT env false) fun _ =>
  Res.bind (copyConfigT env src) fun localCfg =>
  buildRunT env localCfg

/-- The output-file section of `status` in `tailwindcss.py`. -/
def outputSectionT (env : Env) : List Ev :=
  if env.outputExists then
    [Ev.out ("✓ Output CSS: " ++ outputCssPathT ++ " (" ++ env.outputSizeText ++ " KB)")]
  else
    [Ev.out "⚠ Output CSS not found\n(run: python manage.py tailwindcss build)"]

/-- The config-plus-output section of `status` in `tailwindcss.py`: the
output-file check runs only when the setting validated (`config_valid`). -/
def configAndOutputT (env : Env) : List Ev :=
  match validateSettingT env with
  | (t, Except.ok _) => t ++ outputSectionT env
  | (t, Except.error m) =>
    t ++ [Ev.out "✗ TAILWIND_CSS issue:", Ev.out ("  " ++ m)]

/-- Embedding of `Command.status` in `tailwindcss.py`: like the base
command's `status`, but the output-file section runs only when the
setting validated. -/
def statusT (env : Env) : Res Unit :=
  ([Ev.out "djanX TailwindCSS Setup Status", Ev.out dashes50] ++
    statusNpmSection env ++ statusNpxSection env ++ configAndOutputT env,
    Except.ok ())

/-! ### The `tw` alias
(src/djanx/tailwindcss/management/commands/tw.py)

`tw.py` begins with `from .tailwindcss import add_tailwindcss_arguments`.
Python resolves that import against the names bound at the top level of
`tailwindcss.py` when its body has run: its seven imports and its single
`class Command` statement.  A name not among them makes the `from` import
raise `ImportError`, so the `tw` command never loads. -/

/-- The module-level names `tailwindcss.py` binds (its `import` statements
and its one `class` statement; `add_arguments` is a method of `Command`,
not a module-level name). -/
def tailwindcssModuleNames : List String :=
  ["platform", "shutil", "subprocess", "Path", "settings", "BaseCommand",
    "CommandError", "Command"]

/-- Loading `tw.py`: its `from .tailwindcss import add_tailwindcss_arguments`
succeeds exactly when the imported name is module-level in `tailwindcss.py`. -/
def twModuleLoad : Except String Unit :=
  if "add_tailwindcss_arguments" ∈ tailwindcssModuleNames then Except.ok ()
  else
    Except.error "ImportError: cannot import name 'add_tailwindcss_arguments' from 'djanx.tailwindcss.management.commands.tailwindcss'"

/-! ### Specification predicates over runs -/

/-- The run spawned no subprocess. -/
def subFree {α : Type} (r : Res α) : Prop :=
  ∀ argv, Ev.sub argv ∉ r.1

/-- The run removed no directory tree. -/
def rmtreeFree {α : Type} (r : Res α) : Prop :=
  ∀ p, Ev.rmtree p ∉ r.1

/-- No `OSError` escapes the run. -/
def noOsErr {α : Type} (r : Res α) : Prop :=
  ∀ m, r.2 ≠ Except.error (PyExc.osError m)

/-- The run returned normally or raised a `CommandError`. -/
def okOrCmdErr (r : Res Unit) : Prop :=
  r.2 = Except.ok () ∨ ∃ m, r.2 = Except.error (PyExc.commandError m)

/-- The configuration setting is missing, empty/falsy, of wrong type,
pointing to a non-existent path, or pointing to a non-regular file. -/
def ConfigInvalid (env : Env) : Prop :=
  env.configDefined = false ∨ truthyVal env.configValue = false ∨
    configPathOf env.configValue = none ∨ env.configExists = false ∨
    env.configIsFile = false

/-- A fully healthy environment, the base point for the witnesses. -/
def baseEnv : Env where
  osName := "Linux"
  npmFound := true
  npmWorks := true
  npmVersionOut := "10.8.2\n"
  npmExecErr := ""
  npxFound := true
  npxWorks := true
  npxVersionOut := "10.8.2\n"
  npxExecErr := ""
  setupDirExists := true
  packageJsonExists := true
  configDefined := true
  configValue := ConfigVal.path "app/conf/tailwind.config.css"
  configExists := true
  configIsFile := true
  configSameAsDest := false
  copyFails := false
  copyErr := ""
  nodeModulesExists := true
  rmtreeFails := false
  rmtreeErr := ""
  npmInstallExit0 := true
  npmInstallStdout := ""
  npmInstallStderr := ""
  buildExit0 := true
  buildStdout := ""
  buildStderr := ""
  watchExit0 := true
  watchInterrupted := false
  outputExists := true
  outputSizeText := "12.34"

/-- Environment of the C7 counterexample: everything healthy, `node_modules`
present, but `shutil.rmtree` fails (say, a permission error). -/
def envRmtreeFails : Env :=
  { baseEnv with rmtreeFails := true, rmtreeErr := "Permission denied: 'node_modules'" }

/-- Environment with the Tailwind configuration setting not defined. -/
def envNoConfig : Env := { baseEnv with configDefined := false }

/-- Environment whose configuration path exists but is a directory. -/
def envConfigDir : Env :=
  { baseEnv with configValue := ConfigVal.path "app/conf", configIsFile := false }

/-- An event is purely diagnostic: a text write or a read-only probe
subprocess — no tree removal, no file copy. -/
def isDiag : Ev → Bool
  | Ev.out _ => true
  | Ev.sub _ => true
  | Ev.rmtree _ => false
  | Ev.copy _ _ => false

/-! ## Helper lemmas -/

theorem Res.bind_snd_ok {α β : Type} {t : List Ev} {a : α} (f : α → Res β) :
    (Res.bind (t, Except.ok a) f).2 = (f a).2 := rfl

theorem mem_bind_trace {α β : Type} {r : Res α} {f : α → Res β} {e : Ev}
    (he : e ∈ (Res.bind r f).1) : e ∈ r.1 ∨ ∃ a, e ∈ (f a).1 := by
  obtain ⟨t, x⟩ := r
  cases x with
  | ok a =>
    simp only [Res.bind, List.mem_append] at he
    rcases he with h | h
    · exact Or.inl h
    · exact Or.inr ⟨a, h⟩
  | error ex => exact Or.inl he

theorem noOsErr_bind {α β : Type} {r : Res α} {f : α → Res β}
    (hr : noOsErr r) (hf : ∀ a, noOsErr (f a)) : noOsErr (Res.bind r f) := by
  obtain ⟨t, x⟩ := r
  cases x with
  | ok a => intro m; simpa [Res.bind] using hf a m
  | error ex => intro m; simpa [Res.bind] using hr m

theorem okOrCmdErr_of_noOsErr {r : Res Unit} (h : noOsErr r) : okOrCmdErr r := by
  obtain ⟨t, x⟩ := r
  cases x with
  | ok a => exact Or.inl rfl
  | error ex =>
    cases ex with
    | commandError m => exact Or.inr ⟨m, rfl⟩
    | osError m => exact absurd rfl (h m)

theorem noOsErr_checkNpm (env : Env) : noOsErr (checkNpm env) := by
  intro m
  unfold checkNpm
  split
  · simp
  · split <;> simp

theorem noOsErr_checkNpx (env : Env) : noOsErr (checkNpx env) := by
  intro m
  unfold checkNpx
  split
  · simp
  · split <;> simp

theorem noOsErr_validateSetupB (env : Env) : noOsErr (validateSetupB env) := by
  intro m
  unfold validateSetupB
  split
  · simp
  · split <;> simp

theorem noOsErr_liftValidate (r : List Ev × Except String String) :
    noOsErr (liftValidate r) := by
  intro m
  obtain ⟨t, x⟩ := r
  cases x <;> simp [liftValidate]

theorem noOsErr_forceRemoveB (env : Env) (force : Bool)
    (h : ¬(force = true ∧ env.nodeModulesExists = true ∧ env.rmtreeFails = true)) :
    noOsErr (forceRemoveB env force) := by
  intro m
  unfold forceRemoveB
  cases hf : force <;> cases hnm : env.nodeModulesExists <;>
    cases hr : env.rmtreeFails <;> simp_all

theorem noOsErr_forceRemoveT (env : Env) (force : Bool) :
    noOsErr (forceRemoveT env force) := by
  intro m
  unfold forceRemoveT
  split
  · split <;> simp
  · simp

theorem noOsErr_npmInstallB (env : Env) : noOsErr (npmInstallB env) := by
  intro m
  unfold npmInstallB
  split <;> simp

theorem noOsErr_npmInstallT (env : Env) : noOsErr (npmInstallT env) := by
  intro m
  unfold npmInstallT
  split <;> simp

theorem noOsErr_copyConfigB (env : Env) (src : String) :
    noOsErr (copyConfigB env src) := by
  intro m
  unfold copyConfigB
  split
  · simp
  · split <;> simp

theorem noOsErr_copyConfigT (env : Env) (src : String) :
    noOsErr (copyConfigT env src) := by
  intro m
  unfold copyConfigT
  split
  · simp
  · split <;> simp

theorem noOsErr_buildRunB (env : Env) (cfg : String) :
    noOsErr (buildRunB env cfg) := by
  intro m
  unfold buildRunB
  split <;> simp

theorem noOsErr_buildRunT (env : Env) (cfg : String) :
    noOsErr (buildRunT env cfg) := by
  intro m
  unfold buildRunT
  split <;> simp

theorem noOsErr_watchRunB (env : Env) (cfg : String) :
    noOsErr (watchRunB env cfg) := by
  intro m
  unfold watchRunB
  split
  · simp
  · split <;> simp

theorem noOsErr_installB (env : Env) (force : Bool)
    (h : ¬(force = true ∧ env.nodeModulesExists = true ∧ env.rmtreeFails = true)) :
    noOsErr (installB env force) :=
  noOsErr_bind (noOsErr_validateSetupB env) fun _ =>
  noOsErr_bind (noOsErr_checkNpm env) fun _ =>
  noOsErr_bind (noOsErr_forceRemoveB env force h) fun _ =>
  noOsErr_npmInstallB env

theorem noOsErr_installT (env : Env) (force : Bool) : noOsErr (installT env force) :=
  noOsErr_bind (noOsErr_checkNpm env) fun _ =>
  noOsErr_bind (noOsErr_forceRemoveT env force) fun _ =>
  noOsErr_npmInstallT env

theorem noOsErr_ensureNodeModulesB (env : Env) :
    noOsErr (ensureNodeModulesB env) := by
  intro m
  unfold ensureNodeModulesB
  split
  · simp
  · exact noOsErr_installB env false (by simp) m

theorem noOsErr_ensureNodeModulesT (env : Env) (force : Bool) :
    noOsErr (ensureNodeModulesT env force) := by
  intro m
  unfold ensureNodeModulesT
  split
  · exact noOsErr_installT env force m
  · simp

theorem noOsErr_buildB (env : Env) : noOsErr (buildB env) :=
  noOsErr_bind (noOsErr_validateSetupB env) fun _ =>
  noOsErr_bind (noOsErr_liftValidate (validateConfigB env)) fun src =>
  noOsErr_bind (noOsErr_checkNpx env) fun _ =>
  noOsErr_bind (noOsErr_ensureNodeModulesB env) fun _ =>
  noOsErr_bind (noOsErr_copyConfigB env src) fun cfg =>
  noOsErr_buildRunB env cfg

theorem noOsErr_watchB (env : Env) : noOsErr (watchB env) :=
  noOsErr_bind (noOsErr_validateSetupB env) fun _ =>
  noOsErr_bind (noOsErr_liftValidate (validateConfigB env)) fun src =>
  noOsErr_bind (noOsErr_checkNpx env) fun _ =>
  noOsErr_bind (noOsErr_ensureNodeModulesB env) fun _ =>
  noOsErr_bind (noOsErr_copyConfigB env src) fun cfg =>
  noOsErr_watchRunB env cfg

theorem noOsErr_buildT (env : Env) : noOsErr (buildT env) :=
  noOsErr_bind (noOsErr_liftValidate (validateSettingT env)) fun src =>
  noOsErr_bind (noOsErr_checkNpx env) fun _ =>
  noOsErr_bind (noOsErr_ensureNodeModulesT env false) fun _ =>
  noOsErr_bind (noOsErr_copyConfigT env src) fun cfg =>
  noOsErr_buildRunT env cfg

theorem validateConfigB_invalid (env : Env) (h : ConfigInvalid env) :
    ∃ m, validateConfigB env = ([], Except.error m) := by
  unfold validateConfigB
  cases h1 : env.configDefined
  · simp [h1]
  · cases h2 : truthyVal env.configValue
    · simp [h1, h2]
    · rcases hp : configPathOf env.configValue with _ | p
      · simp [h1, h2, hp]
      · cases h3 : env.configExists
        · simp [h1, h2, hp, h3]
        · cases h4 : env.configIsFile
          · simp [h1, h2, hp, h3, h4]
          · rcases h with h | h | h | h | h <;> simp_all

theorem validateSettingT_invalid (env : Env) (h : ConfigInvalid env) :
    ∃ m, validateSettingT env = ([], Except.error m) := by
  unfold validateSettingT
  cases h1 : env.configDefined
  · simp [h1]
  · cases h2 : truthyVal env.configValue
    · simp [h1, h2]
    · rcases hp : configPathOf env.configValue with _ | p
      · simp [h1, h2, hp]
      · cases h3 : env.configExists
        · simp [h1, h2, hp, h3]
        · cases h4 : env.configIsFile
          · simp [h1, h2, hp, h3, h4]
          · rcases h with h | h | h | h | h <;> simp_all

theorem sub_install_mem_npmInstallB (env : Env) :
    Ev.sub [npmPath, "install"] ∈ (npmInstallB env).1 := by
  unfold npmInstallB
  cases h : env.npmInstallExit0 <;> simp

theorem sub_install_mem_npmInstallT (env : Env) :
    Ev.sub [npmPath, "install"] ∈ (npmInstallT env).1 := by
  unfold npmInstallT
  cases h : env.npmInstallExit0 <;> simp

theorem rmtreeFree_npmInstallB (env : Env) : rmtreeFree (npmInstallB env) := by
  intro p hp
  unfold npmInstallB at hp
  cases h : env.npmInstallExit0 <;>
    cases h2 : env.npmInstallStdout == "" <;> simp_all

theorem rmtreeFree_npmInstallT (env : Env) : rmtreeFree (npmInstallT env) := by
  intro p hp
  unfold npmInstallT at hp
  cases h : env.npmInstallExit0 <;>
    cases h2 : env.npmInstallStdout == "" <;> simp_all

theorem rmtreeFree_checkNpm (env : Env) : rmtreeFree (checkNpm env) := by
  intro p hp
  unfold checkNpm at hp
  cases h : env.npmFound <;> cases h2 : env.npmWorks <;> simp_all

theorem rmtreeFree_validateSetupB (env : Env) : rmtreeFree (validateSetupB env) := by
  intro p hp
  unfold validateSetupB at hp
  cases h : env.setupDirExists <;> cases h2 : env.packageJsonExists <;> simp_all

theorem rmtreeFree_installB_noforce (env : Env) : rmtreeFree (installB env false) := by
  intro p hp
  unfold installB at hp
  rcases mem_bind_trace hp with h | ⟨_, h⟩
  · exact rmtreeFree_validateSetupB env p h
  rcases mem_bind_trace h with h | ⟨_, h⟩
  · exact rmtreeFree_checkNpm env p h
  rcases mem_bind_trace h with h | ⟨_, h⟩
  · simp [forceRemoveB] at h
  · exact rmtreeFree_npmInstallB env p h

theorem rmtreeFree_installT_noforce (env : Env) : rmtreeFree (installT env false) := by
  intro p hp
  unfold installT at hp
  rcases mem_bind_trace hp with h | ⟨_, h⟩
  · exact rmtreeFree_checkNpm env p h
  rcases mem_bind_trace h with h | ⟨_, h⟩
  · simp [forceRemoveT] at h
  · exact rmtreeFree_npmInstallT env p h

/-- If two character lists agree as appended strings, they agree at every
index inside both left parts. -/
theorem getElem?_eq_of_append_eq {a b x y : List Char} (i : Nat)
    (ha : i < a.length) (hb : i < b.length) (h : a ++ x = b ++ y) :
    a[i]? = b[i]? := by
  have h1 := @List.getElem?_append_left Char a x i ha
  have h2 := @List.getElem?_append_left Char b y i hb
  rw [← h1, ← h2, h]

/-- Two appended strings whose left parts differ at a common index differ. -/
theorem string_append_ne_at (a b x y : String) (i : Nat)
    (ha : i < a.data.length) (hb : i < b.data.length)
    (hne : a.data[i]? ≠ b.data[i]?) : a ++ x ≠ b ++ y := by
  intro he
  exact hne (getElem?_eq_of_append_eq i ha hb
    (by simpa using congrArg String.data he))

theorem notAFileB_ne_notFoundB (p q s : String) :
    msgConfigNotAFileB p ≠ msgConfigNotFoundB q s := by
  unfold msgConfigNotAFileB msgConfigNotFoundB
  exact string_append_ne_at _ _ _ _ 1 (by decide) (by decide) (by decide)

theorem notAFileB_ne_wrongTypeB (p t : String) :
    msgConfigNotAFileB p ≠ msgConfigWrongTypeB t := by
  unfold msgConfigNotAFileB msgConfigWrongTypeB
  exact string_append_ne_at _ _ _ _ 25 (by decide) (by decide) (by decide)

theorem notAFileT_ne_notFoundT (p q s : String) :
    msgSettingNotAFileT p ≠ msgSettingNotFoundT q s := by
  unfold msgSettingNotAFileT msgSettingNotFoundT
  exact string_append_ne_at _ _ _ _ 1 (by decide) (by decide) (by decide)

theorem notAFileT_ne_wrongTypeT (p t : String) :
    msgSettingNotAFileT p ≠ msgSettingWrongTypeT t := by
  unfold msgSettingNotAFileT msgSettingWrongTypeT
  exact string_append_ne_at _ _ _ _ 28 (by decide) (by decide) (by decide)

theorem isDiag_statusNpmSection (env : Env) :
    ∀ e ∈ statusNpmSection env, isDiag e = true := by
  intro e he
  unfold statusNpmSection at he
  cases h1 : env.npmFound <;> cases h2 : env.npmWorks <;> simp_all <;>
    rcases he with rfl | rfl <;> rfl

theorem isDiag_statusNpxSection (env : Env) :
    ∀ e ∈ statusNpxSection env, isDiag e = true := by
  intro e he
  unfold statusNpxSection at he
  cases h1 : env.npxFound <;> cases h2 : env.npxWorks <;> simp_all <;>
    rcases he with rfl | rfl <;> rfl

theorem validateConfigB_cases (env : Env) :
    (∃ m, validateConfigB env = ([], Except.error m)) ∨
    (∃ s p, validateConfigB env = ([Ev.out s], Except.ok p)) := by
  unfold validateConfigB
  cases h1 : env.configDefined
  · simp [h1]
  · cases h2 : truthyVal env.configValue
    · simp [h1, h2]
    · rcases hp : configPathOf env.configValue with _ | p
      · simp [h1, h2, hp]
      · cases h3 : env.configExists
        · simp [h1, h2, hp, h3]
        · cases h4 : env.configIsFile <;> simp [h1, h2, hp, h3, h4]

theorem validateSettingT_cases (env : Env) :
    (∃ m, validateSettingT env = ([], Except.error m)) ∨
    (∃ s p, validateSettingT env = ([Ev.out s], Except.ok p)) := by
  unfold validateSettingT
  cases h1 : env.configDefined
  · simp [h1]
  · cases h2 : truthyVal env.configValue
    · simp [h1, h2]
    · rcases hp : configPathOf env.configValue with _ | p
      · simp [h1, h2, hp]
      · cases h3 : env.configExists
        · simp [h1, h2, hp, h3]
        · cases h4 : env.configIsFile <;> simp [h1, h2, hp, h3, h4]

theorem isDiag_configSectionB (env : Env) :
    ∀ e ∈ configSectionB env, isDiag e = true := by
  intro e he
  unfold configSectionB at he
  rcases validateConfigB_cases env with ⟨m, hv⟩ | ⟨s, p, hv⟩ <;> rw [hv] at he <;>
    simp at he
  · rcases he with rfl | rfl <;> rfl
  · subst he; rfl

theorem isDiag_outputSectionB (env : Env) :
    ∀ e ∈ outputSectionB env, isDiag e = true := by
  intro e he
  unfold outputSectionB at he
  cases h : env.outputExists <;> simp [h] at he <;> subst he <;> rfl

theorem isDiag_configAndOutputT (env : Env) :
    ∀ e ∈ configAndOutputT env, isDiag e = true := by
  intro e he
  unfold configAndOutputT at he
  rcases validateSettingT_cases env with ⟨m, hv⟩ | ⟨s, p, hv⟩ <;> rw [hv] at he
  · simp at he
    rcases he with rfl | rfl <;> rfl
  · simp only [List.singleton_append, List.mem_cons] at he
    rcases he with rfl | he
    · rfl
    · unfold outputSectionT at he
      cases h : env.outputExists <;> simp [h] at he <;> subst he <;> rfl

theorem buildB_invalid_run (env : Env) (h : ConfigInvalid env) :
    ∃ m, buildB env = ([], Except.error (PyExc.commandError m)) := by
  obtain ⟨m, hm⟩ := validateConfigB_invalid env h
  unfold buildB
  cases h1 : env.setupDirExists
  · exact ⟨msgSetupDirB, by simp [Res.bind, validateSetupB, h1]⟩
  · cases h2 : env.packageJsonExists
    · exact ⟨msgPackageJsonB, by simp [Res.bind, validateSetupB, h1, h2]⟩
    · exact ⟨m, by simp [Res.bind, validateSetupB, h1, h2, liftValidate, hm]⟩

theorem watchB_invalid_run (env : Env) (h : ConfigInvalid env) :
    ∃ m, watchB env = ([], Except.error (PyExc.commandError m)) := by
  obtain ⟨m, hm⟩ := validateConfigB_invalid env h
  unfold watchB
  cases h1 : env.setupDirExists
  · exact ⟨msgSetupDirB, by simp [Res.bind, validateSetupB, h1]⟩
  · cases h2 : env.packageJsonExists
    · exact ⟨msgPackageJsonB, by simp [Res.bind, validateSetupB, h1, h2]⟩
    · exact ⟨m, by simp [Res.bind, validateSetupB, h1, h2, liftValidate, hm]⟩

theorem buildT_invalid_run (env : Env) (h : ConfigInvalid env) :
    ∃ m, buildT env = ([], Except.error (PyExc.commandError m)) := by
  obtain ⟨m, hm⟩ := validateSettingT_invalid env h
  unfold buildT
  exact ⟨m, by simp [Res.bind, liftValidate, hm]⟩

/-! ## Claim theorems -/

/-- C1: the `status` subcommand of both the `tailwind` and the `tailwindcss`
management command never raises an exception: for every environment (npm and
npx found or not, working or not; the configuration setting present, absent
or invalid in any way; the output CSS file present or absent) the run
returns normally, and its trace consists of diagnostic writes and read-only
version probes only. -/
theorem status_never_raises (env : Env) :
    (statusB env).2 = Except.ok () ∧ (statusT env).2 = Except.ok () ∧
    (∀ e ∈ (statusB env).1, isDiag e = true) ∧
    (∀ e ∈ (statusT env).1, isDiag e = true) := by
  refine ⟨rfl, rfl, ?_, ?_⟩
  · intro e he
    unfold statusB at he
    simp only [List.append_assoc, List.mem_append, List.mem_cons,
      List.not_mem_nil, or_false] at he
    rcases he with (rfl | rfl) | he | he | he | he
    · rfl
    · rfl
    · exact isDiag_statusNpmSection env e he
    · exact isDiag_statusNpxSection env e he
    · exact isDiag_configSectionB env e he
    · exact isDiag_outputSectionB env e he
  · intro e he
    unfold statusT at he
    simp only [List.append_assoc, List.mem_append, List.mem_cons,
      List.not_mem_nil, or_false] at he
    rcases he with (rfl | rfl) | he | he | he
    · rfl
    · rfl
    · exact isDiag_statusNpmSection env e he
    · exact isDiag_statusNpxSection env e he
    · exact isDiag_configAndOutputT env e he

/-- C2: whenever the Tailwind configuration setting is missing, empty, of
wrong type, non-existent or a directory, `build` and `watch` of the
`tailwind` command and `build` of the `tailwindcss` command raise a
`CommandError` and their traces contain no subprocess invocation at all. -/
theorem build_watch_fail_before_subprocess (env : Env) (h : ConfigInvalid env) :
    ((∃ m, (buildB env).2 = Except.error (PyExc.commandError m)) ∧
      subFree (buildB env)) ∧
    ((∃ m, (watchB env).2 = Except.error (PyExc.commandError m)) ∧
      subFree (watchB env)) ∧
    ((∃ m, (buildT env).2 = Except.error (PyExc.commandError m)) ∧
      subFree (buildT env)) := by
  obtain ⟨m1, h1⟩ := buildB_invalid_run env h
  obtain ⟨m2, h2⟩ := watchB_invalid_run env h
  obtain ⟨m3, h3⟩ := buildT_invalid_run env h
  refine ⟨⟨⟨m1, ?_⟩, ?_⟩, ⟨⟨m2, ?_⟩, ?_⟩, ⟨⟨m3, ?_⟩, ?_⟩⟩ <;>
    simp [subFree, h1, h2, h3]

/-- C2 witness: in a healthy environment whose configuration setting is not
defined, all three runs fail with a `CommandError` and spawn nothing. -/
theorem build_watch_fail_before_subprocess_witness :
    ConfigInvalid envNoConfig ∧
    (((∃ m, (buildB envNoConfig).2 = Except.error (PyExc.commandError m)) ∧
        subFree (buildB envNoConfig)) ∧
      ((∃ m, (watchB envNoConfig).2 = Except.error (PyExc.commandError m)) ∧
        subFree (watchB envNoConfig)) ∧
      ((∃ m, (buildT envNoConfig).2 = Except.error (PyExc.commandError m)) ∧
        subFree (buildT envNoConfig))) :=
  ⟨Or.inl rfl, build_watch_fail_before_subprocess envNoConfig (Or.inl rfl)⟩

/-- C3: the `title` template tag renders
`<title>{name}{separator}{site_name}</title>` when an effective page title
and a non-empty (stripped) `SITE_NAME` are both present, exactly
`<title>{site_name}</title>` when no page title is supplied, and the empty
`<title></title>` when neither a page title nor `SITE_NAME` is set. -/
theorem title_tag_renders (sn ctx nm : Option String) (sep t : String) :
    (effectiveTitle ctx nm = some t → t ≠ "" → pyStrip (sn.getD "") ≠ "" →
      titleTag sn ctx nm sep =
        "<title>" ++ t ++ sep ++ pyStrip (sn.getD "") ++ "</title>") ∧
    (truthyOpt (effectiveTitle ctx nm) = false →
      titleTag sn ctx nm sep =
        "<title>" ++ pyStrip (sn.getD "") ++ "</title>") ∧
    (truthyOpt (effectiveTitle ctx nm) = false → sn = none →
      titleTag sn ctx nm sep = "<title></title>") := by
  refine ⟨?_, ?_, ?_⟩
  · intro h1 h2 h3
    simp [titleTag, h1, truthyOpt, h2, h3, String.append_assoc]
  · intro h
    simp [titleTag, h]
  · intro h hsn
    subst hsn
    simp only [titleTag, h]
    rfl

/-- C3 witness: the three rendering cases at concrete inputs. -/
theorem title_tag_renders_witness :
    titleTag (some "Acme") none (some "Home") " | " =
      "<title>" ++ "Home" ++ " | " ++ pyStrip ((some "Acme").getD "") ++ "</title>" ∧
    titleTag (some "Acme") none none " | " =
      "<title>" ++ pyStrip ((some "Acme").getD "") ++ "</title>" ∧
    titleTag none none none " | " = "<title></title>" :=
  ⟨(title_tag_renders (some "Acme") none (some "Home") " | " "Home").1 rfl
      (by decide) (by decide),
    (title_tag_renders (some "Acme") none none " | " "x").2.1 rfl,
    (title_tag_renders none none none " | " "x").2.2 rfl rfl⟩

/-- C4: `install --force` with an existing `node_modules` removes the
directory (`shutil.rmtree`) before the package-manager install subprocess
runs, in both commands: the trace starts with the version probe and the
removal, and the `npm install` subprocess occurs only afterwards; without
`--force` neither command ever removes a directory tree. -/
theorem install_force_removes_node_modules_first (env : Env)
    (hnpm : env.npmFound = true) (hw : env.npmWorks = true)
    (hd : env.setupDirExists = true) (hp : env.packageJsonExists = true)
    (hnm : env.nodeModulesExists = true) (hr : env.rmtreeFails = false) :
    (∃ post, (installB env true).1 =
        [Ev.sub [npmPath, "--version"], Ev.out "Removing existing node_modules...",
          Ev.rmtree nodeModulesB] ++ post ∧
        Ev.sub [npmPath, "install"] ∈ post) ∧
    (∃ post, (installT env true).1 =
        [Ev.sub [npmPath, "--version"],
          Ev.out "Force option used. Removing node dependecies...",
          Ev.rmtree nodeModulesT] ++ post ∧
        Ev.sub [npmPath, "install"] ∈ post) ∧
    rmtreeFree (installB env false) ∧ rmtreeFree (installT env false) := by
  refine ⟨⟨(npmInstallB env).1, ?_, sub_install_mem_npmInstallB env⟩,
    ⟨Ev.out "✓ Removed node_modules" :: (npmInstallT env).1, ?_,
      List.mem_cons_of_mem _ (sub_install_mem_npmInstallT env)⟩,
    rmtreeFree_installB_noforce env, rmtreeFree_installT_noforce env⟩
  · simp [installB, Res.bind, validateSetupB, checkNpm, forceRemoveB,
      hd, hp, hnpm, hw, hnm, hr]
  · simp [installT, Res.bind, checkNpm, forceRemoveT, hnpm, hw, hnm, hr]

/-- C4 witness: the ordering at the healthy base environment. -/
theorem install_force_removes_node_modules_first_witness :
    (∃ post, (installB baseEnv true).1 =
        [Ev.sub [npmPath, "--version"], Ev.out "Removing existing node_modules...",
          Ev.rmtree nodeModulesB] ++ post ∧
        Ev.sub [npmPath, "install"] ∈ post) ∧
    (∃ post, (installT baseEnv true).1 =
        [Ev.sub [npmPath, "--version"],
          Ev.out "Force option used. Removing node dependecies...",
          Ev.rmtree nodeModulesT] ++ post ∧
        Ev.sub [npmPath, "install"] ∈ post) ∧
    rmtreeFree (installB baseEnv false) ∧ rmtreeFree (installT baseEnv false) :=
  install_force_removes_node_modules_first baseEnv rfl rfl rfl rfl rfl rfl

/-- C5: a configured Tailwind configuration value whose path exists but is
not a regular file makes both validators raise the directory-specific
message "must point to a file, not a directory", a message distinct from
the missing-path message and from the wrong-type message. -/
theorem config_directory_error_message_specific (env : Env) (p q s t : String)
    (h1 : env.configDefined = true) (h2 : truthyVal env.configValue = true)
    (h3 : configPathOf env.configValue = some p) (h4 : env.configExists = true)
    (h5 : env.configIsFile = false) :
    (validateConfigB env).2 = Except.error (msgConfigNotAFileB p) ∧
    (validateSettingT env).2 = Except.error (msgSettingNotAFileT p) ∧
    msgConfigNotAFileB p ≠ msgConfigNotFoundB q s ∧
    msgConfigNotAFileB p ≠ msgConfigWrongTypeB t ∧
    msgSettingNotAFileT p ≠ msgSettingNotFoundT q s ∧
    msgSettingNotAFileT p ≠ msgSettingWrongTypeT t := by
  refine ⟨?_, ?_, notAFileB_ne_notFoundB p q s, notAFileB_ne_wrongTypeB p t,
    notAFileT_ne_notFoundT p q s, notAFileT_ne_wrongTypeT p t⟩
  · simp [validateConfigB, h1, h2, h3, h4, h5]
  · simp [validateSettingT, h1, h2, h3, h4, h5]

/-- C5 witness: the directory case at a concrete environment. -/
theorem config_directory_error_message_specific_witness :
    (validateConfigB envConfigDir).2 =
      Except.error (msgConfigNotAFileB "app/conf") ∧
    (validateSettingT envConfigDir).2 =
      Except.error (msgSettingNotAFileT "app/conf") ∧
    msgConfigNotAFileB "app/conf" ≠ msgConfigNotFoundB "app/conf" "app/conf" ∧
    msgConfigNotAFileB "app/conf" ≠ msgConfigWrongTypeB "int" ∧
    msgSettingNotAFileT "app/conf" ≠ msgSettingNotFoundT "app/conf" "app/conf" ∧
    msgSettingNotAFileT "app/conf" ≠ msgSettingWrongTypeT "int" :=
  config_directory_error_message_specific envConfigDir "app/conf" "app/conf"
    "app/conf" "int" rfl rfl rfl rfl rfl

/-- C6 (code bug): the `tw` command is documented as a faithful alias of
`tailwindcss`, but importing its module raises `ImportError`:
`tw.py` does `from .tailwindcss import add_tailwindcss_arguments`, and
`tailwindcss.py` binds no module-level name of that spelling (its
argument wiring is the method `Command.add_arguments`).  The `tw` command
therefore never loads, contradicting both the spec and `tw.py`'s own
docstring. -/
theorem tw_alias_import_fails :
    twModuleLoad = Except.error "ImportError: cannot import name 'add_tailwindcss_arguments' from 'djanx.tailwindcss.management.commands.tailwindcss'" := by
  rfl

/-- C7 counterexample: with `node_modules` present and `shutil.rmtree`
failing, `tailwind install --force` lets the raw `OSError` escape — the
failure does not surface as a `CommandError`, refuting the claim that every
failure cause surfaces as a single `CommandError`. -/
theorem failure_not_single_command_error_counterexample :
    (installB envRmtreeFails true).2 =
      Except.error (PyExc.osError "Permission denied: 'node_modules'") ∧
    ¬ ∃ m, (installB envRmtreeFails true).2 =
      Except.error (PyExc.commandError m) := by
  refine ⟨rfl, ?_⟩
  rintro ⟨m, hm⟩
  have h0 : (installB envRmtreeFails true).2 =
      Except.error (PyExc.osError "Permission denied: 'node_modules'") := rfl
  rw [h0] at hm
  exact PyExc.noConfusion (Except.error.inj hm)

/-- C7 (amended): every failure of any subcommand of either command
surfaces as a single `CommandError` — except that in the base `tailwind`
command's `install --force`, a failing removal of `node_modules` escapes
as the underlying `OSError` instead (its `shutil.rmtree` is not wrapped,
unlike the `tailwindcss` command's). -/
theorem failures_surface_as_command_error_amended (env : Env) (force : Bool) :
    (¬(force = true ∧ env.nodeModulesExists = true ∧ env.rmtreeFails = true) →
      okOrCmdErr (installB env force)) ∧
    okOrCmdErr (buildB env) ∧ okOrCmdErr (watchB env) ∧
    okOrCmdErr (statusB env) ∧ okOrCmdErr (installT env force) ∧
    okOrCmdErr (buildT env) ∧ okOrCmdErr (statusT env) :=
  ⟨fun h => okOrCmdErr_of_noOsErr (noOsErr_installB env force h),
    okOrCmdErr_of_noOsErr (noOsErr_buildB env),
    okOrCmdErr_of_noOsErr (noOsErr_watchB env),
    Or.inl rfl,
    okOrCmdErr_of_noOsErr (noOsErr_installT env force),
    okOrCmdErr_of_noOsErr (noOsErr_buildT env),
    Or.inl rfl⟩

/-- C7 witness: the amended guarantee at the healthy base environment with
`--force` (whose removal succeeds). -/
theorem failures_surface_as_command_error_amended_witness :
    okOrCmdErr (installB baseEnv true) ∧ okOrCmdErr (buildB baseEnv) ∧
    okOrCmdErr (watchB baseEnv) ∧ okOrCmdErr (statusB baseEnv) ∧
    okOrCmdErr (installT baseEnv true) ∧ okOrCmdErr (buildT baseEnv) ∧
    okOrCmdErr (statusT baseEnv) := by
  obtain ⟨h1, h2, h3, h4, h5, h6, h7⟩ :=
    failures_surface_as_command_error_amended baseEnv true
  exact ⟨h1 (by decide), h2, h3, h4, h5, h6, h7⟩

/-- C8: after `djanx/urls.py` runs, `urlpatterns` holds exactly one entry
per installed app of the `djanx_apps` mapping, in mapping order, mounted
under the last dot-separated segment of the app name followed by a slash,
and nothing else; concretely, with the mapping's single entry, it is
`[("base/", "djanx.base.urls")]` when `djanx.base` is installed and `[]`
otherwise. -/
theorem urlpatterns_mounts_installed_apps (isInstalled : String → Bool) :
    urlpatterns isInstalled =
      (djanx_apps.filter fun e => isInstalled e.1).map
        (fun e => (pyLastSegment e.1 ++ "/", e.2)) ∧
    urlpatterns isInstalled =
      (if isInstalled "djanx.base" then [("base/", "djanx.base.urls")] else []) := by
  cases h : isInstalled "djanx.base" <;> refine ⟨?_, ?_⟩
  all_goals simp [urlpatterns, buildUrlpatterns, djanx_apps, h]
  all_goals decide

/-- C9: when an effective page title is present but `SITE_NAME` is absent,
empty or whitespace-only (stripped to empty), the `title` tag renders
`<title>{name}</title>` with no separator at all. -/
theorem title_tag_empty_site_no_separator (sn ctx nm : Option String)
    (sep t : String) (h1 : effectiveTitle ctx nm = some t) (h2 : t ≠ "")
    (h3 : pyStrip (sn.getD "") = "") :
    titleTag sn ctx nm sep = "<title>" ++ t ++ "</title>" := by
  simp [titleTag, h1, truthyOpt, h2, h3]

/-- C9 witness: a whitespace-only `SITE_NAME` drops the separator. -/
theorem title_tag_empty_site_no_separator_witness :
    titleTag (some "  \t ") none (some "Home") " | " =
      "<title>" ++ "Home" ++ "</title>" :=
  title_tag_empty_site_no_separator (some "  \t ") none (some "Home") " | "
    "Home" rfl (by decide) (by decide)

set_option maxRecDepth 8192 in
/-- C10: the settings-time `.gitignore` generation is idempotent and
non-destructive: each import creates the assets directory, writes the
ignore-all file only when none exists, never overwrites an existing
`.gitignore` (user-edited content included), and importing twice equals
importing once — for both settings variants. -/
theorem assets_gitignore_idempotent (fs : AssetsFS) (c : String) :
    (importAssetsSplit fs).assetsDirExists = true ∧
    (importAssetsSettings fs).assetsDirExists = true ∧
    (fs.gitignore = none →
      (importAssetsSplit fs).gitignore = some splitGitignoreContent ∧
      (importAssetsSettings fs).gitignore = some settingsGitignoreContent) ∧
    "*" ∈ pyLines splitGitignoreContent ∧
    "*" ∈ pyLines settingsGitignoreContent ∧
    (fs.gitignore = some c →
      (importAssetsSplit fs).gitignore = some c ∧
      (importAssetsSettings fs).gitignore = some c) ∧
    importAssetsSplit (importAssetsSplit fs) = importAssetsSplit fs ∧
    importAssetsSettings (importAssetsSettings fs) = importAssetsSettings fs := by
  obtain ⟨d, g⟩ := fs
  cases g <;>
    refine ⟨rfl, rfl, ?_, by decide, by decide, ?_, rfl, rfl⟩ <;>
    intro h <;> simp_all [importAssetsSplit, importAssetsSettings,
      importAssetsSegment]

/-- C10 witness: a fresh filesystem gets the generated file; an edited file
survives the import. -/
theorem assets_gitignore_idempotent_witness :
    ((importAssetsSplit ⟨false, none⟩).gitignore = some splitGitignoreContent ∧
      (importAssetsSettings ⟨false, none⟩).gitignore = some settingsGitignoreContent) ∧
    ((importAssetsSplit ⟨true, some "user edited"⟩).gitignore = some "user edited" ∧
      (importAssetsSettings ⟨true, some "user edited"⟩).gitignore = some "user edited") :=
  ⟨(assets_gitignore_idempotent ⟨false, none⟩ "").2.2.1 rfl,
    (assets_gitignore_idempotent ⟨true, some "user edited"⟩ "user edited").2.2.2.2.2.1 rfl⟩

end Smis
